import Mathlib

/-!
# Verification of the kb-solaria dev-mode supervisor

Shallow embedding of `run.py` and `tasks.py` from the kb-solaria
repository, together with spec-modelled definitions for the behaviour the
source delegates to the external `watchfiles` dependency (the restart loop
and the debounced file watcher), and theorems settling the specification
claims against them.
-/

set_option autoImplicit false

namespace Solaria

/-! ## Events and outcomes of `tasks.py:run_dev`

`run_dev(config_file)` performs, in source order:
1. `os.path.exists("node_modules")` check; `subprocess.check_call(["npm install"], shell=True)` if missing;
2. `frontend = subprocess.Popen(["npm run dev"], shell=True)`;
3. inside `try`: `time.sleep(1)`, `webbrowser.open(...)`, then the blocking
   `subprocess.check_call([sys.executable, "-m", "watchfiles", ...])`;
4. `except KeyboardInterrupt: pass`;
5. `finally`: `frontend.terminate()`, `frontend.wait()`.

We model an execution as the list of observable events it performs plus its
outcome (normal return or the exception it propagates). -/

/-- Observable events of one `run_dev` execution.  The events
`cancelWatcher` and `termBackend` happen inside the `watchfiles` child when
the blocking `check_call` ends; `watchfiles` is an external dependency, so
their presence and order there is modelled from the spec (§4.3
ShuttingDown: cancel the FileWatcher, then terminate the backend). -/
inductive Ev
  | checkDeps
  | npmInstall
  | startFrontend
  | sleepDelay (secs : Nat)
  | openBrowser
  | startWatch
  | cancelWatcher
  | termBackend
  | termFrontend
  | waitFrontend
deriving DecidableEq, Repr

/-- How `run_dev` ends: a normal return, or the exception that propagates
out of it. -/
inductive Outcome
  | ret
  | npmFail
  | spawnFail
  | browserFail
  | watchFail (code : Nat)
  | interrupted
deriving DecidableEq, Repr

/-- How the blocking `check_call` on the watchfiles subprocess ends:
a SIGINT delivered while blocked (raising `KeyboardInterrupt`, caught by
the `except` clause), or the subprocess exiting by itself with some code
(`check_call` raises `CalledProcessError` when the code is nonzero). -/
inductive WatchEnd
  | interrupt
  | exit (code : Nat)
deriving DecidableEq, Repr

/-- Where a further SIGINT lands if one is delivered while the `finally`
block is already executing: just before `frontend.terminate()` runs, or
while blocked in `frontend.wait()`.  In either case CPython raises
`KeyboardInterrupt` at that point inside `finally` and it propagates,
abandoning the rest of the block. -/
inductive FinPoint
  | beforeTerm
  | beforeWait
deriving DecidableEq, Repr

/-- One environment/schedule for a `run_dev` execution: which external
facts hold and where interrupts are delivered. -/
structure Scenario where
  /-- `os.path.exists("node_modules")` -/
  nodeModules : Bool
  /-- whether `npm install` exits 0 (`check_call` raises otherwise) -/
  npmOk : Bool
  /-- whether `subprocess.Popen(["npm run dev"], shell=True)` succeeds -/
  spawnOk : Bool
  /-- a SIGINT delivered while blocked in `time.sleep(1)` -/
  sleepInterrupted : Bool
  /-- `webbrowser.open` raises an exception -/
  browserRaises : Bool
  /-- how the blocking watch `check_call` ends, if reached -/
  watchEnd : WatchEnd
  /-- a further SIGINT delivered during the `finally` block, if any -/
  finallyInterrupt : Option FinPoint
deriving DecidableEq, Repr

/-- The `finally` block (`tasks.py` lines 36-39): `frontend.terminate()`
then `frontend.wait()`.  A `KeyboardInterrupt` raised inside `finally`
replaces the in-flight outcome and propagates, skipping the remaining
statements of the block. -/
def finallyBlock (fin : Option FinPoint) (tr : List Ev) (out : Outcome) :
    List Ev × Outcome :=
  match fin with
  | some .beforeTerm => (tr, .interrupted)
  | some .beforeWait => (tr ++ [.termFrontend], .interrupted)
  | none => (tr ++ [.termFrontend, .waitFrontend], out)

/-- The blocking watch phase (`tasks.py` lines 28-33) and its aftermath:
`check_call` on `python -m watchfiles ...` blocks until SIGINT or until the
subprocess exits; either way the watcher stops and the backend child is
brought down inside the watchfiles process before control returns here
(the internal order is modelled from the spec), and then the `finally`
block runs.  A nonzero exit code makes `check_call` raise
`CalledProcessError`, which propagates through `finally`. -/
def watchPhase (s : Scenario) (tr : List Ev) : List Ev × Outcome :=
  finallyBlock s.finallyInterrupt
    (tr ++ [.startWatch, .cancelWatcher, .termBackend])
    (match s.watchEnd with
     | .interrupt => .ret
     | .exit c => if c = 0 then .ret else .watchFail c)

/-- `tasks.py:run_dev`, as a function from a scenario to the event trace
it performs and its outcome.  Mirrors the source line by line: the
`node_modules` check and conditional `npm install`; the frontend `Popen`
(before the `try`, so its failure propagates with no cleanup); then inside
`try`/`except KeyboardInterrupt`/`finally`: `time.sleep(1)`,
`webbrowser.open`, and the blocking watch `check_call`. -/
def run_dev (s : Scenario) : List Ev × Outcome :=
  let tr0 : List Ev :=
    if s.nodeModules then [.checkDeps] else [.checkDeps, .npmInstall]
  if !s.nodeModules && !s.npmOk then
    (tr0, .npmFail)
  else if !s.spawnOk then
    (tr0, .spawnFail)
  else
    let tr1 := tr0 ++ [.startFrontend]
    if s.sleepInterrupted then
      finallyBlock s.finallyInterrupt (tr1 ++ [.sleepDelay 1]) .ret
    else if s.browserRaises then
      finallyBlock s.finallyInterrupt
        (tr1 ++ [.sleepDelay 1, .openBrowser]) .browserFail
    else
      watchPhase s (tr1 ++ [.sleepDelay 1, .openBrowser])

/-- Exit code of the process running `run_dev` as its top task: 0 on a
normal return, nonzero (Python uses a nonzero status for any uncaught
exception) otherwise. -/
def exitCodeOf : Outcome → Nat
  | .ret => 0
  | _ => 1

/-! ## `run.py`: argument handling and exit status

`run.py` declares one positional argument `config_file`, uses
`parse_known_args()` so extra flags injected by tooling are tolerated,
builds `backend_argv = [str(args.config_file)]` (no `--static-dir`, so the
backend runs API-only), runs the backend, and swallows
`KeyboardInterrupt` so Ctrl-C exits cleanly. -/

/-- `argparse` flag test: an argument beginning with `-` is an optional
flag, anything else is a positional. -/
def isFlag (a : String) : Bool :=
  match a.data with
  | [] => false
  | c :: _ => c = '-'

/-- `parser.parse_known_args()` with a single declared positional
`config_file`: the first non-flag argument becomes `config_file` (parsing
fails with an argparse error when there is none); everything else lands in
the ignored unknown-args list. -/
def parseConfigArg (argv : List String) : Option String :=
  (argv.filter (fun a => !isFlag a)).head?

/-- `backend_argv = [str(args.config_file)]` (`run.py` line 13). -/
def backend_argv (config : String) : List String := [config]

/-- The argument vector `run.py` hands to the backend, as a function of
the script's own arguments: parse, then wrap the config path as the sole
element. -/
def runPyBackendArgv (argv : List String) : Option (List String) :=
  (parseConfigArg argv).map backend_argv

/-- The restart command `watchfiles` is given
(`tasks.py` line 30): the f-string `f"{sys.executable} run.py {config_file}"`. -/
def restartCommand (python config : String) : String :=
  python ++ " run.py " ++ config

/-- The full argument list of the watch subprocess
(`tasks.py` lines 28-33). -/
def watchfilesArgs (python config : String) : List String :=
  [python, "-m", "watchfiles", restartCommand python config,
   "kbunified", "run.py"]

/-- Split a character list at every occurrence of `sep`. -/
def splitOnChar (sep : Char) (l : List Char) : List (List Char) :=
  l.foldr (fun c acc =>
    match acc with
    | [] => if c = sep then [[], []] else [[c]]
    | w :: ws => if c = sep then [] :: (w :: ws) else (c :: w) :: ws) [[]]

/-- Whitespace splitting of a command string into an argument vector, as
`watchfiles` does before spawning the restart command. -/
def splitArgs (cmd : String) : List String :=
  ((splitOnChar ' ' cmd.data).filter (fun w => w ≠ [])).map String.mk

/-- How the backend coroutine (`backend_main`) ends inside `run.py`. -/
inductive BackendEnd
  | completes
  | keyboardInterrupt
  | raises
deriving DecidableEq, Repr

/-- Exit status of `python run.py ...` (`run.py` lines 18-21): the
`try`/`except KeyboardInterrupt: pass` turns Ctrl-C into a normal exit;
any other exception is uncaught, so Python exits nonzero. -/
def runPyExitCode : BackendEnd → Nat
  | .completes => 0
  | .keyboardInterrupt => 0
  | .raises => 1

/-! ## Frontend shutdown: `frontend.terminate(); frontend.wait()`

`tasks.py` lines 38-39 shut the frontend down with `Popen.terminate()`
(which sends SIGTERM and nothing else) followed by `Popen.wait()` with no
timeout argument.  There is no grace period and no SIGKILL escalation
anywhere in the source, so the shutdown blocks for exactly as long as the
child takes to exit after SIGTERM — forever, if it ignores the signal. -/

/-- A child process, abstracted to what the shutdown code can observe:
how long after receiving SIGTERM it exits, or `none` if it ignores SIGTERM
and never exits. -/
structure ChildProc where
  exitsAfterSigterm : Option Nat
deriving DecidableEq, Repr

/-- Result of the frontend shutdown sequence. -/
inductive ShutdownResult
  | completed (waitTime : Nat)
  | blocksForever
deriving DecidableEq, Repr

/-- `frontend.terminate(); frontend.wait()` (`tasks.py` lines 38-39):
send SIGTERM, then block until the process exits.  No timeout, no
escalation to SIGKILL. -/
def terminate_then_wait (p : ChildProc) : ShutdownResult :=
  match p.exitsAfterSigterm with
  | some t => .completed t
  | none => .blocksForever

/-! ## The restart loop (spec-modelled)

The supervisor/restart loop itself is executed by the external
`watchfiles` dependency, not by code under `src/`, so it is modelled from
the spec (§4.3 Reloading): on each ChangeEvent the current backend is
terminated — Running → Terminating → Exited — and only then is a fresh
backend started with the same command; the frontend is never touched. -/

/-- Lifecycle state of one child process instance (spec §3). -/
inductive PStat
  | running
  | terminating
  | exited
deriving DecidableEq, Repr

/-- Whether an instance currently occupies the "live backend" slot. -/
def isLive : PStat → Bool
  | .running => true
  | .terminating => true
  | .exited => false

/-- Modelled from the spec: the supervisor's view of the system — every
backend instance ever started (newest first, as pid/status pairs), the
frontend's pid, and the next fresh pid the OS will hand out. -/
structure Sup where
  backends : List (Nat × PStat)
  frontendPid : Nat
  nextPid : Nat
deriving DecidableEq, Repr

/-- Number of backend instances simultaneously Running or Terminating. -/
def liveCount (l : List (Nat × PStat)) : Nat :=
  (l.filter (fun q => isLive q.2)).length

/-- Start a fresh backend instance with a fresh pid. -/
def startBackend (s : Sup) : Sup :=
  { s with backends := (s.nextPid, .running) :: s.backends,
           nextPid := s.nextPid + 1 }

/-- Move the most recent backend instance to the given lifecycle state. -/
def markCur (st : PStat) (s : Sup) : Sup :=
  { s with backends :=
      match s.backends with
      | (p, _) :: rest => (p, st) :: rest
      | [] => [] }

/-- Modelled from the spec: first half of a Reloading cycle — the current
backend receives its termination signal. -/
def reloadT (s : Sup) : Sup := markCur .terminating s

/-- Modelled from the spec: the terminating backend has exited. -/
def reloadE (s : Sup) : Sup := markCur .exited (reloadT s)

/-- Modelled from the spec: a full Reloading cycle — terminate the current
backend, wait for it to exit, then start a fresh one. -/
def reloadDone (s : Sup) : Sup := startBackend (reloadE s)

/-- State right after the initial backend start (spec §4.3 Starting): one
Running backend, frontend already up. -/
def supInit (fp p0 : Nat) : Sup :=
  { backends := [(p0, .running)], frontendPid := fp, nextPid := p0 + 1 }

/-- Supervisor state after `n` ChangeEvents have been processed while
Running. -/
def supAfter (fp p0 : Nat) : Nat → Sup
  | 0 => supInit fp p0
  | n + 1 => reloadDone (supAfter fp p0 n)

/-- The three intermediate states one Reloading cycle passes through. -/
def reloadStates (s : Sup) : List Sup := [reloadT s, reloadE s, reloadDone s]

/-- Every state the supervisor passes through while processing `n`
ChangeEvents, starting from the initial start. -/
def supTrace (fp p0 n : Nat) : List Sup :=
  supInit fp p0 ::
    (List.range n).flatMap (fun k => reloadStates (supAfter fp p0 k))

/-- Pid of the currently most recent backend instance. -/
def curPid (s : Sup) : Option Nat := s.backends.head?.map Prod.fst

/-! ## The debounced watcher (spec-modelled)

The debounce is performed inside the external `watchfiles` dependency,
not by code under `src/`, so it is modelled from the spec (§4.2): each
ChangeEvent coalesces every filesystem modification observed within
`debounceWindow` of the first modification of a burst. -/

/-- Modelled from the spec: group a time-ordered list of filesystem
modification timestamps into bursts — a burst opens at its first
modification `t` and absorbs every modification up to `t + W`; each burst
yields one ChangeEvent. -/
def debounceGroups (W : Nat) : List Nat → List (List Nat)
  | [] => []
  | t :: ts =>
      (t :: ts.takeWhile (fun u => u ≤ t + W)) ::
        debounceGroups W (ts.dropWhile (fun u => u ≤ t + W))
termination_by l => l.length
decreasing_by
  simp only [List.length_cons]
  exact Nat.lt_succ_of_le (List.dropWhile_sublist _).length_le

/-- Number of ChangeEvents the watcher emits for the given modification
timestamps. -/
def changeEventCount (W : Nat) (mods : List Nat) : Nat :=
  (debounceGroups W mods).length

/-! ## Auxiliary observers on traces -/

/-- The three shutdown actions whose relative order the spec fixes. -/
def isShutdownEv : Ev → Bool
  | .cancelWatcher => true
  | .termBackend => true
  | .termFrontend => true
  | _ => false

/-- The two launch steps whose relative order claim C4 fixes: opening the
browser and starting the backend watch process. -/
def isLaunchMark : Ev → Bool
  | .openBrowser => true
  | .startWatch => true
  | _ => false

/-- Recognises the frontend-start event. -/
def isFrontendStart : Ev → Bool
  | .startFrontend => true
  | _ => false

/-- The events the `finally` block contributes to the trace, as a function
of where a further SIGINT lands in it (if anywhere). -/
def finTail : Option FinPoint → List Ev
  | none => [.termFrontend, .waitFrontend]
  | some .beforeTerm => []
  | some .beforeWait => [.termFrontend]

/-! ## Trace shape of `run_dev` -/

/-- The event trace of `run_dev` in closed form: the dependency-check
prelude; nothing more if `npm install` or the frontend spawn fails; else
frontend start and the 1-second delay, the steps of the `try` body that
are reached, and the `finally` tail.  Notably the trace never depends on
how the watch subprocess ends. -/
theorem run_dev_fst (s : Scenario) :
    (run_dev s).1 =
      (if s.nodeModules then [Ev.checkDeps] else [Ev.checkDeps, Ev.npmInstall]) ++
      (if !s.nodeModules && !s.npmOk then []
       else if !s.spawnOk then []
       else [Ev.startFrontend, Ev.sleepDelay 1] ++
         (if s.sleepInterrupted then []
          else [Ev.openBrowser] ++
            (if s.browserRaises then []
             else [Ev.startWatch, Ev.cancelWatcher, Ev.termBackend])) ++
         finTail s.finallyInterrupt) := by
  obtain ⟨nm, npm, sp, si, br, we, fi⟩ := s
  cases nm <;> cases npm <;> cases sp <;> cases si <;> cases br <;>
    rcases fi with _ | (_ | _) <;> rfl

/-! ## Supervisor machine lemmas -/

/-- Closed form of the supervisor state after `n` reloads: the current
backend is Running with pid `p0 + n`, every older instance has Exited, and
`n + 1` instances have been started in total. -/
theorem supAfter_spec (fp p0 : Nat) : ∀ n : Nat,
    ∃ rest : List (Nat × PStat),
      supAfter fp p0 n =
        { backends := (p0 + n, PStat.running) :: rest,
          frontendPid := fp, nextPid := p0 + n + 1 } ∧
      (∀ q ∈ rest, q.2 = PStat.exited) ∧ rest.length = n := by
  intro n
  induction n with
  | zero => exact ⟨[], rfl, by simp, rfl⟩
  | succ n ih =>
      obtain ⟨rest, heq, hex, hlen⟩ := ih
      refine ⟨(p0 + n, PStat.exited) :: rest, ?_, ?_, ?_⟩
      · show reloadDone (supAfter fp p0 n) = _
        rw [heq]; rfl
      · intro q hq
        rcases List.mem_cons.mp hq with h | h
        · rw [h]
        · exact hex q h
      · simp [hlen]

/-- A backend list whose tail is all Exited has at most one live entry,
and exactly one iff its head is live. -/
theorem liveCount_cons (p : Nat) (st : PStat) (rest : List (Nat × PStat))
    (h : ∀ q ∈ rest, q.2 = PStat.exited) :
    liveCount ((p, st) :: rest) = if isLive st then 1 else 0 := by
  have hrest : rest.filter (fun q => isLive q.2) = [] := by
    rw [List.filter_eq_nil_iff]
    intro q hq
    rw [h q hq]
    decide
  unfold liveCount
  rw [List.filter_cons]
  cases hst : isLive st <;> simp [hrest, hst]

/-- Every state in the supervisor trace is the initial state or belongs to
some reload cycle. -/
theorem mem_supTrace (fp p0 n : Nat) (st : Sup) (h : st ∈ supTrace fp p0 n) :
    st = supInit fp p0 ∨
      ∃ k, k < n ∧ st ∈ reloadStates (supAfter fp p0 k) := by
  rcases List.mem_cons.mp h with h0 | h1
  · exact Or.inl h0
  · right
    obtain ⟨k, hk, hmem⟩ := List.mem_flatMap.mp h1
    exact ⟨k, List.mem_range.mp hk, hmem⟩

/-- The currently live backend's pid after `n` reloads. -/
theorem curPid_supAfter (fp p0 n : Nat) :
    curPid (supAfter fp p0 n) = some (p0 + n) := by
  obtain ⟨rest, heq, -, -⟩ := supAfter_spec fp p0 n
  rw [heq]; rfl

/-- A backend list whose tail is all Exited has at most one live entry. -/
theorem liveCount_le_one (p : Nat) (st : PStat) (rest : List (Nat × PStat))
    (h : ∀ q ∈ rest, q.2 = PStat.exited) :
    liveCount ((p, st) :: rest) ≤ 1 := by
  rw [liveCount_cons p st rest h]
  cases isLive st <;> simp

/-- The outcome of `run_dev` in closed form. -/
theorem run_dev_snd (s : Scenario) :
    (run_dev s).2 =
      if !s.nodeModules && !s.npmOk then Outcome.npmFail
      else if !s.spawnOk then Outcome.spawnFail
      else
        match s.finallyInterrupt with
        | some _ => Outcome.interrupted
        | none =>
            if s.sleepInterrupted then Outcome.ret
            else if s.browserRaises then Outcome.browserFail
            else
              match s.watchEnd with
              | WatchEnd.interrupt => Outcome.ret
              | WatchEnd.exit c =>
                  if c = 0 then Outcome.ret else Outcome.watchFail c := by
  obtain ⟨nm, npm, sp, si, br, we, fi⟩ := s
  cases nm <;> cases npm <;> cases sp <;> cases si <;> cases br <;>
    rcases fi with _ | (_ | _) <;> cases we <;> rfl

/-! ## Debounce lemmas -/

/-- A burst entirely inside one debounce window coalesces into a single
group. -/
theorem debounceGroups_burst (W t : Nat) (ts : List Nat)
    (h : ∀ u ∈ ts, u ≤ t + W) :
    (debounceGroups W (t :: ts)).length = 1 := by
  have hd : ts.dropWhile (fun u => u ≤ t + W) = [] := by
    rw [List.dropWhile_eq_nil_iff]
    intro u hu
    simpa using h u hu
  simp [debounceGroups, hd]

/-- Modifications pairwise separated by more than the debounce window each
form their own group. -/
theorem debounceGroups_isolated (W : Nat) :
    ∀ l : List Nat, List.Chain' (fun a b => a + W < b) l →
      (debounceGroups W l).length = l.length := by
  intro l
  induction l with
  | nil => intro _; simp [debounceGroups]
  | cons t ts ih =>
      intro h
      cases ts with
      | nil => simp [debounceGroups]
      | cons u us =>
          obtain ⟨h1, h2⟩ := List.chain'_cons.mp h
          have hu : ¬ (u ≤ t + W) := Nat.not_le.mpr h1
          have step : debounceGroups W (t :: u :: us) =
              [t] :: debounceGroups W (u :: us) := by
            simp only [debounceGroups]
            simp [hu, debounceGroups]
          rw [step, List.length_cons, List.length_cons, ih h2]

/-! ## Claims -/

/-- C1: for every sequence of N ChangeEvents delivered while the
supervisor is Running, the backend is started exactly N + 1 times (the
initial start plus one restart per event), and at no point of the
execution are two backend instances simultaneously Running or
Terminating. -/
theorem C1_backend_starts_and_exclusivity (fp p0 n : Nat) :
    (supAfter fp p0 n).backends.length = n + 1 ∧
    ∀ st ∈ supTrace fp p0 n, liveCount st.backends ≤ 1 := by
  constructor
  · obtain ⟨rest, heq, -, hlen⟩ := supAfter_spec fp p0 n
    rw [heq]
    simp [hlen]
  · intro st hst
    rcases mem_supTrace fp p0 n st hst with h0 | ⟨k, -, hmem⟩
    · rw [h0]
      simp [supInit, liveCount, isLive]
    · obtain ⟨rest, heq, hex, -⟩ := supAfter_spec fp p0 k
      have hex' : ∀ q ∈ (p0 + k, PStat.exited) :: rest,
          q.2 = PStat.exited := by
        intro q hq
        rcases List.mem_cons.mp hq with h | h
        · rw [h]
        · exact hex q h
      simp only [reloadStates, List.mem_cons, List.not_mem_nil,
        or_false] at hmem
      rcases hmem with h | h | h
      · rw [h, heq]
        exact liveCount_le_one (p0 + k) PStat.terminating rest hex
      · rw [h, heq]
        exact liveCount_le_one (p0 + k) PStat.exited rest hex
      · rw [h, heq]
        exact liveCount_le_one (p0 + k + 1) PStat.running
          ((p0 + k, PStat.exited) :: rest) hex'

/-- Witness for C1 at fp = 7, p0 = 100, n = 3. -/
theorem C1_backend_starts_and_exclusivity_witness :
    (supAfter 7 100 3).backends.length = 3 + 1 ∧
    liveCount (supInit 7 100).backends ≤ 1 :=
  ⟨(C1_backend_starts_and_exclusivity 7 100 3).1,
   (C1_backend_starts_and_exclusivity 7 100 3).2 (supInit 7 100)
     (List.mem_cons_self _ _)⟩

/-- C2: in every shutdown the events cancel-watcher, terminate-backend,
terminate-frontend occur (those of them that occur at all) in exactly that
relative order — in particular the frontend is never terminated before the
backend — and in a full shutdown from the running watch phase all three
occur in that order. -/
theorem C2_shutdown_order :
    (∀ s : Scenario,
        List.Sublist ((run_dev s).1.filter isShutdownEv)
          [Ev.cancelWatcher, Ev.termBackend, Ev.termFrontend]) ∧
    (∀ s : Scenario, s.spawnOk = true →
        (s.nodeModules = true ∨ s.npmOk = true) →
        s.sleepInterrupted = false → s.browserRaises = false →
        s.finallyInterrupt = none →
        (run_dev s).1.filter isShutdownEv =
          [Ev.cancelWatcher, Ev.termBackend, Ev.termFrontend]) := by
  constructor
  · intro s
    obtain ⟨nm, npm, sp, si, br, we, fi⟩ := s
    rw [run_dev_fst]
    dsimp only
    cases nm <;> cases npm <;> cases sp <;> cases si <;> cases br <;>
      rcases fi with _ | (_ | _) <;> decide
  · intro s hs hn hsi hbr hf
    obtain ⟨nm, npm, sp, si, br, we, fi⟩ := s
    dsimp only at hs hn hsi hbr hf
    subst hs
    subst hsi
    subst hbr
    subst hf
    rw [run_dev_fst]
    dsimp only
    rcases hn with h | h <;> subst h <;>
      first
        | (cases npm <;> decide)
        | (cases nm <;> decide)

/-- Witness for C2: the full shutdown order in a clean Ctrl-C run. -/
theorem C2_shutdown_order_witness :
    (run_dev ⟨true, true, true, false, false, WatchEnd.interrupt,
        none⟩).1.filter isShutdownEv =
      [Ev.cancelWatcher, Ev.termBackend, Ev.termFrontend] :=
  C2_shutdown_order.2 ⟨true, true, true, false, false, WatchEnd.interrupt,
    none⟩ rfl (Or.inl rfl) rfl rfl rfl

/-- C3 counterexample: the claim that the frontend shutdown blocks at most
a grace period and then escalates is false — the source calls
`terminate()` (SIGTERM only) and then `wait()` with no timeout, so a child
that ignores SIGTERM blocks shutdown forever. -/
theorem C3_counterexample :
    terminate_then_wait ⟨none⟩ = ShutdownResult.blocksForever ∧
    ¬ ∀ p : ChildProc,
        terminate_then_wait p ≠ ShutdownResult.blocksForever :=
  ⟨rfl, fun h => h ⟨none⟩ rfl⟩

/-- C3 (amended): `frontend.terminate()` sends only a graceful stop and
`frontend.wait()` then blocks until the process exits, with no grace
period and no forced-kill escalation: the shutdown blocks forever exactly
when the child never exits after SIGTERM, otherwise it blocks for however
long the child takes — longer than any alleged grace period. -/
theorem C3_terminate_unbounded_amended :
    (∀ p : ChildProc,
        (terminate_then_wait p = ShutdownResult.blocksForever ↔
          p.exitsAfterSigterm = none) ∧
        ∀ t, p.exitsAfterSigterm = some t →
          terminate_then_wait p = ShutdownResult.completed t) ∧
    ∀ grace : Nat, ∃ p : ChildProc, ∃ t : Nat, grace < t ∧
        terminate_then_wait p = ShutdownResult.completed t := by
  constructor
  · intro p
    obtain ⟨e⟩ := p
    cases e <;> simp [terminate_then_wait]
  · intro grace
    exact ⟨⟨some (grace + 1)⟩, grace + 1, Nat.lt_succ_self grace, rfl⟩

/-- Witness for the amended C3. -/
theorem C3_terminate_unbounded_amended_witness :
    terminate_then_wait ⟨some 5⟩ = ShutdownResult.completed 5 ∧
    (terminate_then_wait ⟨none⟩ = ShutdownResult.blocksForever ↔
      (⟨none⟩ : ChildProc).exitsAfterSigterm = none) :=
  ⟨(C3_terminate_unbounded_amended.1 ⟨some 5⟩).2 5 rfl,
   (C3_terminate_unbounded_amended.1 ⟨none⟩).1⟩

/-- C4 counterexample: in a clean run the browser is opened before the
backend watch process is started, so the claimed order (backend start
before browser open) is false. -/
theorem C4_counterexample :
    (run_dev ⟨true, true, true, false, false, WatchEnd.interrupt,
        none⟩).1.filter isLaunchMark =
      [Ev.openBrowser, Ev.startWatch] ∧
    [Ev.openBrowser, Ev.startWatch] ≠ [Ev.startWatch, Ev.openBrowser] := by
  decide

/-- C4 (amended): every successful startup performs, in order: dependency
install-check, frontend start, the fixed 1-second delay, browser open, and
only then the backend start (the watch process), which blocks until
shutdown. -/
theorem C4_launch_order_amended (s : Scenario)
    (hs : s.spawnOk = true) (hn : s.nodeModules = true ∨ s.npmOk = true)
    (hsi : s.sleepInterrupted = false) (hbr : s.browserRaises = false) :
    ∃ tail, (run_dev s).1 =
      (if s.nodeModules then [Ev.checkDeps]
       else [Ev.checkDeps, Ev.npmInstall]) ++
      [Ev.startFrontend, Ev.sleepDelay 1, Ev.openBrowser, Ev.startWatch] ++
      tail := by
  obtain ⟨nm, npm, sp, si, br, we, fi⟩ := s
  dsimp only at hs hn hsi hbr
  subst hs
  subst hsi
  subst hbr
  refine ⟨[Ev.cancelWatcher, Ev.termBackend] ++ finTail fi, ?_⟩
  rw [run_dev_fst]
  dsimp only
  rcases hn with h | h <;> subst h <;> rcases fi with _ | (_ | _) <;>
    first
      | (cases npm <;> decide)
      | (cases nm <;> decide)

/-- Witness for the amended C4 in a clean Ctrl-C run. -/
theorem C4_launch_order_amended_witness :
    ∃ tail, (run_dev ⟨true, true, true, false, false, WatchEnd.interrupt,
        none⟩).1 =
      [Ev.checkDeps] ++
      [Ev.startFrontend, Ev.sleepDelay 1, Ev.openBrowser, Ev.startWatch] ++
      tail := by
  obtain ⟨tail, h⟩ := C4_launch_order_amended
    ⟨true, true, true, false, false, WatchEnd.interrupt, none⟩
    rfl (Or.inl rfl) rfl rfl
  exact ⟨tail, h⟩

/-- C5: exit code 0 whenever a single interrupt arrives after successful
startup (clean shutdown); nonzero whenever startup fails — `npm install`
failing, the frontend spawn failing, or the watch subprocess failing with
a nonzero status; likewise `run.py` exits 0 on `KeyboardInterrupt` and
nonzero on a backend exception. -/
theorem C5_exit_codes :
    (∀ s : Scenario, s.spawnOk = true →
        (s.nodeModules = true ∨ s.npmOk = true) →
        s.sleepInterrupted = false → s.browserRaises = false →
        s.watchEnd = WatchEnd.interrupt → s.finallyInterrupt = none →
        exitCodeOf (run_dev s).2 = 0) ∧
    (∀ s : Scenario, s.nodeModules = false → s.npmOk = false →
        exitCodeOf (run_dev s).2 ≠ 0) ∧
    (∀ s : Scenario, s.spawnOk = false →
        (s.nodeModules = true ∨ s.npmOk = true) →
        exitCodeOf (run_dev s).2 ≠ 0) ∧
    (∀ s : Scenario, ∀ c : Nat, s.spawnOk = true →
        (s.nodeModules = true ∨ s.npmOk = true) →
        s.sleepInterrupted = false → s.browserRaises = false →
        s.watchEnd = WatchEnd.exit c → c ≠ 0 → s.finallyInterrupt = none →
        exitCodeOf (run_dev s).2 ≠ 0) ∧
    runPyExitCode BackendEnd.keyboardInterrupt = 0 ∧
    runPyExitCode BackendEnd.raises ≠ 0 := by
  refine ⟨?_, ?_, ?_, ?_, rfl, by decide⟩
  · intro s hs hn hsi hbr hw hf
    have hn' : (!s.nodeModules && !s.npmOk) = false := by
      rcases hn with h | h <;> simp [h]
    rw [run_dev_snd]
    simp [hn', hs, hsi, hbr, hw, hf, exitCodeOf]
  · intro s h1 h2
    rw [run_dev_snd]
    simp [h1, h2, exitCodeOf]
  · intro s hsp hn
    have hn' : (!s.nodeModules && !s.npmOk) = false := by
      rcases hn with h | h <;> simp [h]
    rw [run_dev_snd]
    simp [hn', hsp, exitCodeOf]
  · intro s c hs hn hsi hbr hw hc hf
    have hn' : (!s.nodeModules && !s.npmOk) = false := by
      rcases hn with h | h <;> simp [h]
    rw [run_dev_snd]
    simp [hn', hs, hsi, hbr, hw, hf, hc, exitCodeOf]

/-- Witness for C5: clean shutdown exits 0; an `npm install` failure exits
nonzero. -/
theorem C5_exit_codes_witness :
    exitCodeOf (run_dev ⟨true, true, true, false, false,
        WatchEnd.interrupt, none⟩).2 = 0 ∧
    exitCodeOf (run_dev ⟨false, false, true, false, false,
        WatchEnd.interrupt, none⟩).2 ≠ 0 :=
  ⟨C5_exit_codes.1 _ rfl (Or.inl rfl) rfl rfl rfl rfl,
   C5_exit_codes.2.1 _ rfl rfl⟩

/-- C6: a reload affects only the backend — every supervisor state keeps
the frontend pid unchanged, each reload changes the live backend's pid,
and in every `run_dev` trace the frontend is started at most once. -/
theorem C6_reload_frame_effect (fp p0 n : Nat) :
    (∀ st ∈ supTrace fp p0 n, st.frontendPid = fp) ∧
    curPid (supAfter fp p0 (n + 1)) ≠ curPid (supAfter fp p0 n) ∧
    ∀ s : Scenario, ((run_dev s).1.filter isFrontendStart).length ≤ 1 := by
  refine ⟨?_, ?_, ?_⟩
  · intro st hst
    rcases mem_supTrace fp p0 n st hst with h0 | ⟨k, -, hmem⟩
    · rw [h0]
      rfl
    · obtain ⟨rest, heq, -, -⟩ := supAfter_spec fp p0 k
      simp only [reloadStates, List.mem_cons, List.not_mem_nil,
        or_false] at hmem
      rcases hmem with h | h | h <;> rw [h, heq] <;> rfl
  · rw [curPid_supAfter, curPid_supAfter]
    simp only [Ne, Option.some.injEq]
    omega
  · intro s
    obtain ⟨nm, npm, sp, si, br, we, fi⟩ := s
    rw [run_dev_fst]
    dsimp only
    cases nm <;> cases npm <;> cases sp <;> cases si <;> cases br <;>
      rcases fi with _ | (_ | _) <;> decide

/-- Witness for C6 at fp = 7, p0 = 100, n = 0, and one concrete
scenario. -/
theorem C6_reload_frame_effect_witness :
    (supInit 7 100).frontendPid = 7 ∧
    curPid (supAfter 7 100 (0 + 1)) ≠ curPid (supAfter 7 100 0) ∧
    ((run_dev ⟨true, true, true, false, false, WatchEnd.interrupt,
        none⟩).1.filter isFrontendStart).length ≤ 1 :=
  ⟨(C6_reload_frame_effect 7 100 0).1 (supInit 7 100)
      (List.mem_cons_self _ _),
   (C6_reload_frame_effect 7 100 0).2.1,
   (C6_reload_frame_effect 7 100 0).2.2 _⟩

/-- C7: the backend always receives the configuration file path as its
sole argument, never any flag (in particular never `--static-dir`, the
static-asset flag), for the initial start and every restart: the restart
command is `python run.py <config>` and `run.py` passes exactly
`[config]` to the backend. -/
theorem C7_backend_sole_arg_api_only :
    (∀ argv config, parseConfigArg argv = some config →
        runPyBackendArgv argv = some [config] ∧
        (backend_argv config).length = 1 ∧
        ∀ fl, isFlag fl = true → fl ∉ backend_argv config) ∧
    isFlag "--static-dir" = true ∧
    (∀ python config,
        (watchfilesArgs python config)[3]? =
          some (restartCommand python config)) ∧
    splitArgs (restartCommand "python3" "config.yaml") =
      ["python3", "run.py", "config.yaml"] ∧
    runPyBackendArgv
        ((splitArgs (restartCommand "python3" "config.yaml")).drop 2) =
      some ["config.yaml"] := by
  refine ⟨?_, by decide, fun _ _ => rfl, by decide, by decide⟩
  intro argv config h
  have hc : config ∈ argv.filter (fun a => !isFlag a) :=
    List.mem_of_mem_head? h
  have hcf : (!isFlag config) = true := (List.mem_filter.mp hc).2
  refine ⟨?_, rfl, ?_⟩
  · unfold runPyBackendArgv
    rw [h]
    rfl
  · intro fl hfl hmem
    rw [List.mem_singleton.mp hmem] at hfl
    rw [hfl] at hcf
    simp at hcf

/-- Witness for C7: a parse with an injected extra flag still yields the
config path as the backend's sole argument. -/
theorem C7_backend_sole_arg_api_only_witness :
    runPyBackendArgv ["config.yaml", "--verbose"] = some ["config.yaml"] ∧
    (backend_argv "config.yaml").length = 1 :=
  ⟨(C7_backend_sole_arg_api_only.1 ["config.yaml", "--verbose"]
      "config.yaml" (by decide)).1,
   (C7_backend_sole_arg_api_only.1 ["config.yaml", "--verbose"]
      "config.yaml" (by decide)).2.1⟩

/-- C8: debounce — any N ≥ 1 modifications within one debounce window of
the first produce exactly one ChangeEvent, while modifications pairwise
spaced more than the window apart produce one event each. -/
theorem C8_debounce (W : Nat) :
    (∀ t : Nat, ∀ ts : List Nat, (∀ u ∈ ts, u ≤ t + W) →
        changeEventCount W (t :: ts) = 1) ∧
    (∀ l : List Nat, List.Chain' (fun a b => a + W < b) l →
        changeEventCount W l = l.length) := by
  constructor
  · intro t ts h
    exact debounceGroups_burst W t ts h
  · intro l h
    exact debounceGroups_isolated W l h

/-- Witness for C8 with window 10: a burst of three yields one event,
three well-spaced modifications yield three events. -/
theorem C8_debounce_witness :
    changeEventCount 10 (0 :: [3, 7]) = 1 ∧
    changeEventCount 10 [0, 11, 22] = 3 :=
  ⟨(C8_debounce 10).1 0 [3, 7] (by decide),
   (C8_debounce 10).2 [0, 11, 22]
     (by simp [List.chain'_cons, List.chain'_singleton])⟩

/-- C9 counterexample: a second interrupt delivered while already shutting
down changes the execution — `run_dev` propagates `KeyboardInterrupt`
(an error) and `frontend.wait()` is skipped — so shutdown is not
idempotent. -/
theorem C9_counterexample :
    run_dev ⟨true, true, true, false, false, WatchEnd.interrupt,
        some FinPoint.beforeWait⟩ ≠
      run_dev ⟨true, true, true, false, false, WatchEnd.interrupt, none⟩ ∧
    (run_dev ⟨true, true, true, false, false, WatchEnd.interrupt,
        some FinPoint.beforeWait⟩).2 = Outcome.interrupted ∧
    Ev.waitFrontend ∉
      (run_dev ⟨true, true, true, false, false, WatchEnd.interrupt,
        some FinPoint.beforeWait⟩).1 := by
  decide

/-- C9 (amended): a second interrupt delivered during the shutdown
sequence makes `run_dev` propagate `KeyboardInterrupt` and abandons the
rest of the shutdown: `frontend.wait()` never runs (and
`frontend.terminate()` also does not if the interrupt lands first). -/
theorem C9_second_interrupt_amended (s : Scenario) (p : FinPoint)
    (hs : s.spawnOk = true) (hn : s.nodeModules = true ∨ s.npmOk = true)
    (hf : s.finallyInterrupt = some p) :
    (run_dev s).2 = Outcome.interrupted ∧
    Ev.waitFrontend ∉ (run_dev s).1 := by
  obtain ⟨nm, npm, sp, si, br, we, fi⟩ := s
  dsimp only at hs hn hf
  subst hs
  subst hf
  constructor
  · rw [run_dev_snd]
    dsimp only
    rcases hn with h | h <;> subst h <;> cases si <;> cases br <;>
      cases p <;>
      first
        | (cases npm <;> decide)
        | (cases nm <;> decide)
  · rw [run_dev_fst]
    dsimp only
    rcases hn with h | h <;> subst h <;> cases si <;> cases br <;>
      cases p <;>
      first
        | (cases npm <;> decide)
        | (cases nm <;> decide)

/-- Witness for the amended C9. -/
theorem C9_second_interrupt_amended_witness :
    (run_dev ⟨true, true, true, false, false, WatchEnd.interrupt,
        some FinPoint.beforeTerm⟩).2 = Outcome.interrupted ∧
    Ev.waitFrontend ∉
      (run_dev ⟨true, true, true, false, false, WatchEnd.interrupt,
        some FinPoint.beforeTerm⟩).1 :=
  C9_second_interrupt_amended _ FinPoint.beforeTerm rfl (Or.inl rfl) rfl

/-- C10: whenever the frontend was started and no further interrupt lands
inside the `finally` block itself, `frontend.terminate()` followed by
`frontend.wait()` are the last events before `run_dev` returns or
propagates — for every outcome (clean return, startup-delay interruption,
browser-open failure, watch subprocess failure), not only on
`KeyboardInterrupt`. -/
theorem C10_frontend_cleanup (s : Scenario)
    (hs : s.spawnOk = true) (hn : s.nodeModules = true ∨ s.npmOk = true)
    (hf : s.finallyInterrupt = none) :
    [Ev.termFrontend, Ev.waitFrontend] <:+ (run_dev s).1 := by
  obtain ⟨nm, npm, sp, si, br, we, fi⟩ := s
  dsimp only at hs hn hf
  subst hs
  subst hf
  rw [run_dev_fst]
  dsimp only
  rcases hn with h | h <;> subst h <;> cases si <;> cases br <;>
    first
      | (cases npm <;> decide)
      | (cases nm <;> decide)

/-- Witness for C10: cleanup also runs when the watch subprocess fails
with a nonzero status. -/
theorem C10_frontend_cleanup_witness :
    [Ev.termFrontend, Ev.waitFrontend] <:+
      (run_dev ⟨true, true, true, false, false, WatchEnd.exit 3,
        none⟩).1 :=
  C10_frontend_cleanup _ rfl (Or.inl rfl) rfl

end Solaria
